import Mathlib

/-!
Shallow embedding of the AidConnect resource-matching and chat front-end
logic, together with theorems settling the frozen claims about it.

Sources embedded (TypeScript):
* `src/components/ResourcePanel.tsx` — shelter needs enrichment
  (haversine distance, ETA heuristic, urgency score), radius filter and
  sorting (`fetchNeeds`, `sortedFiltered`).
* `src/components/ChatInterface.tsx` — affected-area enrichment and
  top-5 priority view (`AffectedAreaPanel.fetchAffectedAreas`,
  `sortedAreas`), the `<think>` tag splitting in `ChatInterface.handleSend`,
  and the match-resources fallback logic (`handleMatchResources`).
* `src/config/disaster.ts` — the `DisasterContext` shape.

Modelling conventions: JavaScript numbers are modelled as rationals
(`ℚ`) except inside the trigonometric haversine function, which is
modelled over `ℝ`; `null`/`undefined` fields are `Option`s; JS
`Math.round` is `⌊x + 1/2⌋` (round half towards positive infinity);
JS `Array.prototype.sort` (stable since ES2019) is `List.mergeSort`,
with `compare(a,b) ≤ 0` (NaN from `∞ - ∞` is treated as `+0` by the
ECMAScript `SortCompare`, i.e. as a tie) as the boolean `le` relation.
-/

namespace AidConnect

/-- Disaster severity levels, from `src/config/disaster.ts` (`DisasterLocation.severity`). -/
inductive Severity
  | low
  | moderate
  | high
  | critical
deriving DecidableEq

/-- Road factor keyed by `disaster?.severity`, from `ResourcePanel.tsx` lines 112-123
and the identical block in `ChatInterface.tsx` lines 443-454; `Option` because the
code guards with `disaster?.`. -/
def roadFactor : Option Severity → ℚ
  | some .critical => 85/100
  | some .high => 95/100
  | some .moderate => 98/100
  | _ => 1

/-- JS `Math.round`: round half towards positive infinity. -/
def jsRound (q : ℚ) : ℤ := ⌊q + 1/2⌋

/-- Shelter priority, from the `Need` type in `ResourcePanel.tsx` (derived from
total capacity at line 67). -/
inductive Priority
  | high
  | medium
  | low
deriving DecidableEq

/-- Priority multiplier for the shelter ETA heuristic, `ResourcePanel.tsx` line 134. -/
def priorityMultiplier : Priority → ℚ
  | .high => 85/100
  | .low => 115/100
  | .medium => 1

/-- Priority band of the urgency score, `ResourcePanel.tsx` line 146. -/
def priorityScore : Priority → ℤ
  | .high => 0
  | .medium => 50
  | .low => 100

/-- Boolean prefix test on character lists (JS strings are lists of characters here). -/
def leadsWith : List Char → List Char → Bool
  | [], _ => true
  | _ :: _, [] => false
  | a :: as, b :: bs => a == b && leadsWith as bs

/-- JS `String.prototype.includes`: `containsSub needle hay` is true when
`needle` occurs contiguously inside `hay`. -/
def containsSub (needle : List Char) : List Char → Bool
  | [] => needle.isEmpty
  | c :: rest => leadsWith needle (c :: rest) || containsSub needle rest

/-- JS `String.prototype.toLowerCase`, restricted to its ASCII action (the
letters A-Z are shifted to a-z; all data sets in the repository are ASCII). -/
def jsToLower (s : List Char) : List Char :=
  s.map fun c => if 65 ≤ c.toNat && c.toNat ≤ 90 then Char.ofNat (c.toNat + 32) else c

/-- Demand overlap heuristic, `ResourcePanel.tsx` line 132: some item of the
shelter case-insensitively contains some needed resource name as a substring
(`it.toLowerCase().includes(r.toLowerCase())`). -/
def demandOverlap (items needed : List String) : Bool :=
  items.any fun it => needed.any fun r =>
    containsSub (jsToLower r.toList) (jsToLower it.toList)

/-- Base road speed in km/h, `ResourcePanel.tsx` line 111 / `ChatInterface.tsx` line 442. -/
def baseSpeedKmh : ℚ := 80

/-- Staging/prep overhead in minutes, `ResourcePanel.tsx` line 135 / `ChatInterface.tsx` line 470. -/
def deployOverheadMinutes : ℚ := 20

/-- Shelter ETA heuristic, `ResourcePanel.tsx` lines 131-138, as a function of the
(already rounded) distance in km, the disaster severity, the shelter items, the
needed resources and the shelter priority. -/
def etaMinutesShelter (distanceKm : ℚ) (sev : Option Severity)
    (items needed : List String) (p : Priority) : ℤ :=
  let demandMultiplier : ℚ := if demandOverlap items needed then 125/100 else 1
  let pm := priorityMultiplier p
  let travelHours := distanceKm / (baseSpeedKmh * roadFactor sev)
  max 5 (jsRound ((travelHours * 60 + deployOverheadMinutes) * demandMultiplier * pm))

/-- Affected-area priority multiplier, `ChatInterface.tsx` line 469:
`priority_level >= 5 ? 0.85 : priority_level >= 4 ? 0.95 : 1.0`. -/
def areaPriorityMultiplier (level : ℤ) : ℚ :=
  if 5 ≤ level then 85/100 else if 4 ≤ level then 95/100 else 1

/-- Affected-area ETA heuristic, `ChatInterface.tsx` lines 469-473. -/
def etaMinutesArea (distanceKm : ℚ) (sev : Option Severity) (level : ℤ) : ℤ :=
  let travelHours := distanceKm / (baseSpeedKmh * roadFactor sev)
  max 5 (jsRound ((travelHours * 60 + deployOverheadMinutes) * areaPriorityMultiplier level))

/-- The read-only disaster reference record (`src/config/disaster.ts`), restricted
to the fields the enrichment reads; `Option` mirrors the `typeof ... === "number"`
runtime guards on `disaster?.lat` / `disaster?.lon`. -/
structure DisasterContext where
  lat : Option ℚ
  lon : Option ℚ
  severity : Option Severity
  resourcesNeeded : List String

/-- A shelter record as mapped in `ResourcePanel.fetchNeeds` (the `Need` type),
restricted to the fields the enrichment and sorting read. -/
structure Need where
  shelter : String
  location : String
  items : List String
  priority : Priority
  lat : Option ℚ
  lon : Option ℚ
  distance_km : Option ℚ
  eta_minutes : Option ℤ
  urgency : ℤ
deriving DecidableEq

/-- Enrichment of one shelter record, `ResourcePanel.tsx` lines 125-157.
`dist` abstracts the composite `Number(haversineKm(...).toFixed(3))`
(arguments: disaster lat, disaster lon, entity lat, entity lon); it is a total
function, so the `try`/`catch` on lines 129-142 has a dead `catch` branch. -/
def enrichNeed (dist : ℚ → ℚ → ℚ → ℚ → ℚ) (ctx : DisasterContext) (m : Need) : Need :=
  match m.lat, m.lon, ctx.lat, ctx.lon with
  | some mlat, some mlon, some dlat, some dlon =>
    let d := dist dlat dlon mlat mlon
    let eta := etaMinutesShelter d ctx.severity m.items ctx.resourcesNeeded m.priority
    { m with
      distance_km := some d
      eta_minutes := some eta
      urgency := priorityScore m.priority + eta }
  | _, _, _, _ =>
    { m with
      distance_km := none
      eta_minutes := none
      urgency := priorityScore m.priority + 9999 }

/-- Batch enrichment, the `mapped.map (m => ...)` of `ResourcePanel.tsx` line 125. -/
def enrichNeeds (dist : ℚ → ℚ → ℚ → ℚ → ℚ) (ctx : DisasterContext)
    (needs : List Need) : List Need :=
  needs.map (enrichNeed dist ctx)

/-- An affected-area record, the `AffectedArea` type of `ChatInterface.tsx`;
`coordinates` is an `Option` because the code guards on its truthiness
(line 461). -/
structure AreaRec where
  id : String
  location : String
  coordinates : Option (ℚ × ℚ)
  disaster_type : String
  population_affected : ℤ
  priority_level : ℤ
  required_resources : List (String × ℤ)
  time_reported : String
  distance_km : Option ℚ
  eta_minutes : Option ℤ
deriving DecidableEq

/-- Enrichment of one affected area, `ChatInterface.tsx` lines 456-486. -/
def enrichArea (dist : ℚ → ℚ → ℚ → ℚ → ℚ) (ctx : DisasterContext) (a : AreaRec) : AreaRec :=
  match a.coordinates, ctx.lat, ctx.lon with
  | some c, some dlat, some dlon =>
    let d := dist dlat dlon c.1 c.2
    { a with
      distance_km := some d
      eta_minutes := some (etaMinutesArea d ctx.severity a.priority_level) }
  | _, _, _ =>
    { a with
      distance_km := none
      eta_minutes := none }

/-- Batch enrichment of affected areas, the `data.map (area => ...)` of
`ChatInterface.tsx` line 456. -/
def enrichAreas (dist : ℚ → ℚ → ℚ → ℚ → ℚ) (ctx : DisasterContext)
    (areas : List AreaRec) : List AreaRec :=
  areas.map (enrichArea dist ctx)

/-- Sort keys of `ResourcePanel` (`useState<"urgency" | "eta" | "distance">`). -/
inductive NeedSortKey
  | urgency
  | eta
  | distance
deriving DecidableEq

/-- Sort keys of `AffectedAreaPanel` (`useState<"priority" | "eta" | "distance">`). -/
inductive AreaSortKey
  | priority
  | eta
  | distance
deriving DecidableEq

/-- Comparator `compare(a,b) ≤ 0` for the `aa - bb` pattern where a `null` key is
replaced by `Number.POSITIVE_INFINITY` (`ResourcePanel.tsx` lines 184-192,
`ChatInterface.tsx` lines 507-515). Two `null` keys give `∞ - ∞ = NaN`, which
ECMAScript `SortCompare` treats as `+0`, i.e. a tie, hence `true`. -/
def infLe {α : Type} [LinearOrder α] : Option α → Option α → Bool
  | some a, some b => decide (a ≤ b)
  | some _, none => true
  | none, some _ => false
  | none, none => true

/-- The shelter comparator of `ResourcePanel.sortedFiltered` (lines 183-198) as a
boolean `le` relation. -/
def needCmpLe : NeedSortKey → Need → Need → Bool
  | .eta, a, b => infLe a.eta_minutes b.eta_minutes
  | .distance, a, b => infLe a.distance_km b.distance_km
  | .urgency, a, b => decide (a.urgency ≤ b.urgency)

/-- The area comparator of `AffectedAreaPanel.sortedAreas` (lines 506-522) as a
boolean `le` relation: priority level descending, then population descending;
`eta`/`distance` keys as for shelters. -/
def areaCmpLe : AreaSortKey → AreaRec → AreaRec → Bool
  | .eta, a, b => infLe a.eta_minutes b.eta_minutes
  | .distance, a, b => infLe a.distance_km b.distance_km
  | .priority, a, b =>
    if a.priority_level = b.priority_level then
      decide (b.population_affected ≤ a.population_affected)
    else
      decide (b.priority_level < a.priority_level)

/-- Radius filter of `ResourcePanel.sortedFiltered`, lines 176-180: applied only
when the radius is a number greater than 0; keeps records whose `distance_km`
is a number and at most the radius. -/
def radiusFilter (radiusKm : Option ℚ) (arr : List Need) : List Need :=
  match radiusKm with
  | some rkm =>
    if 0 < rkm then
      arr.filter fun n =>
        match n.distance_km with
        | some d => decide (d ≤ rkm)
        | none => false
    else arr
  | none => arr

/-- `ResourcePanel.sortedFiltered`, lines 174-201: radius filter then stable sort
by the selected key. -/
def sortedFiltered (sortBy : NeedSortKey) (radiusKm : Option ℚ) (needs : List Need) : List Need :=
  (radiusFilter radiusKm needs).mergeSort (needCmpLe sortBy)

/-- `AffectedAreaPanel.sortedAreas`, lines 503-525: stable sort by the selected
key, then truncate to the top 5. -/
def sortedAreas (sortBy : AreaSortKey) (areas : List AreaRec) : List AreaRec :=
  (areas.mergeSort (areaCmpLe sortBy)).take 5

/-- Splits a character list at the first occurrence of `tag`: returns the part
before the occurrence and the part after it. This is the primitive both for the
first match of the regex `/<think>[\s\S]*?<\/think>/` and for its `replace` in
`ChatInterface.handleSend` (lines 108-114). -/
def splitOnTag (tag : List Char) : List Char → Option (List Char × List Char)
  | [] => if leadsWith tag [] then some ([], []) else none
  | c :: rest =>
    if leadsWith tag (c :: rest) then some ([], (c :: rest).drop tag.length)
    else (splitOnTag tag rest).map fun p => (c :: p.1, p.2)

/-- The opening delimiter of a thinking segment. -/
def thinkOpen : List Char := '<' :: 't' :: 'h' :: 'i' :: 'n' :: 'k' :: '>' :: []

/-- The closing delimiter of a thinking segment. -/
def thinkClose : List Char := '<' :: '/' :: 't' :: 'h' :: 'i' :: 'n' :: 'k' :: '>' :: []

/-- Whitespace characters for JS `String.prototype.trim` (restricted to the ASCII
ones; JS additionally strips some Unicode spaces, which never appear here). -/
def isJsSpace (c : Char) : Bool :=
  c == ' ' || c == '\t' || c == '\n' || c == '\r' || c == '\x0b' || c == '\x0c'

/-- JS `String.prototype.trim` on character lists. -/
def jsTrim (s : List Char) : List Char :=
  ((s.dropWhile isJsSpace).reverse.dropWhile isJsSpace).reverse

/-- The `<think>` tag handling of `ChatInterface.handleSend`, lines 104-120:
if the reply contains `<think>...</think>` (first occurrence, lazy content,
exactly as the non-global regex), the trimmed content becomes the thinking
trace and the first delimited block is removed from the reply, which is then
trimmed; `thinking || undefined` maps an empty extracted trace to `none`.
Returns (visible content, optional thinking). -/
def normalizeReply (reply : List Char) : List Char × Option (List Char) :=
  match splitOnTag thinkOpen reply with
  | none => (reply, none)
  | some (before, rest) =>
    match splitOnTag thinkClose rest with
    | none => (reply, none)
    | some (mid, after) =>
      let thinking := jsTrim mid
      (jsTrim (before ++ after), if thinking.isEmpty then none else some thinking)

/-- Whether a string still contains a complete `<think>...</think>` segment. -/
def hasThinkSegment (s : List Char) : Bool :=
  match splitOnTag thinkOpen s with
  | none => false
  | some p => (splitOnTag thinkClose p.2).isSome

/-- One AI match entry (`MatchedShelter` in `MatchedSheltersDialog.tsx`,
`full_data` flattened to the two fields the mock supplies). -/
structure MatchEntry where
  idx : ℤ
  name : String
  location : String
  match_score : ℤ
  reason : String
  capacity : ℤ
  available_items : List String
deriving DecidableEq

/-- The match-resources dialog payload (`MatchResult` in
`MatchedSheltersDialog.tsx`). -/
structure MatchResultRec where
  success : Bool
  «matches» : List MatchEntry
  reasoning : String
  affected_area : Option AreaRec
deriving DecidableEq

/-- The fixed fallback matches of `AffectedAreaPanel.handleMatchResources`
(`ChatInterface.tsx` lines 328-362, duplicated verbatim at lines 374-408). -/
def fallbackMatches : List MatchEntry :=
  [ { idx := 1
      name := "Georgetown Community Center"
      location := "Georgetown, Washington DC"
      match_score := 94
      reason := "Excellent resource availability with 2,500 water bottles, 1,800 food kits, and large capacity. Located 3.2km from affected area with quick access via M Street."
      capacity := 850
      available_items := ["Water", "Food Kits", "Blankets", "Medical Supplies", "Hygiene Kits"] },
    { idx := 2
      name := "Arlington Emergency Shelter"
      location := "Arlington, Virginia"
      match_score := 88
      reason := "High capacity facility (1,200 people) with comprehensive medical supplies and food resources. Only 5.8km away with direct highway access for rapid deployment."
      capacity := 1200
      available_items := ["Medical Kits", "Food Kits", "Blankets", "Water", "First Aid", "Clothing"] },
    { idx := 3
      name := "Anacostia Recreation Center"
      location := "Anacostia, Washington DC"
      match_score := 85
      reason := "Closest facility at just 1.8km away. Good blanket and water supply (1,100 blankets, 1,600 water bottles). Ideal for immediate response due to proximity."
      capacity := 600
      available_items := ["Blankets", "Water", "Hygiene Kits", "Flashlights", "Batteries"] } ]

/-- The fixed fallback reasoning string of `handleMatchResources`. -/
def fallbackReasoning : String :=
  "Selected shelters prioritize proximity to Southeast DC, resource availability matching critical needs (water, food, medical supplies), and combined capacity to support 3,100+ affected residents. Georgetown and Arlington provide comprehensive resources while Anacostia offers rapid response capability."

/-- The fallback result substituted on any API failure (`success: true`,
the three mock matches, the fixed reasoning, the triggering area attached). -/
def fallbackResult (area : AreaRec) : MatchResultRec :=
  { success := true
    «matches» := fallbackMatches
    reasoning := fallbackReasoning
    affected_area := some area }

/-- Outcome of the `fetch` to `/api/match-resources`: either the connection
failed (the `catch` path) or a response arrived with HTTP-ok flag `ok` and
parsed body `data`. -/
inductive FetchOutcome
  | connectionError
  | response (ok : Bool) (data : MatchResultRec)

/-- The result selection of `AffectedAreaPanel.handleMatchResources`
(`ChatInterface.tsx` lines 301-415): on connection error, or on a non-OK
response, or when the body's `success` flag is not set, the fixed fallback
is substituted; otherwise the body is passed through unchanged. -/
def handleMatchResources (area : AreaRec) (o : FetchOutcome) : MatchResultRec :=
  match o with
  | .connectionError => fallbackResult area
  | .response ok data => if !ok || !data.success then fallbackResult area else data

/-- JS `Math.atan2` over the reals (sign conventions of the four quadrants;
only the `0 < x` branch is ever exercised by the theorems below). -/
noncomputable def jsAtan2 (y x : ℝ) : ℝ :=
  if 0 < x then Real.arctan (y / x)
  else if x < 0 then
    (if 0 ≤ y then Real.arctan (y / x) + Real.pi else Real.arctan (y / x) - Real.pi)
  else
    (if 0 < y then Real.pi / 2 else if y < 0 then -(Real.pi / 2) else 0)

/-- The haversine helper of `ResourcePanel.tsx` lines 100-108 and
`ChatInterface.tsx` lines 429-439, over the reals (the floating-point
evaluation is exact at the coincident-point inputs the theorems use). -/
noncomputable def haversineKm (lat1 lon1 lat2 lon2 : ℝ) : ℝ :=
  let toRad : ℝ → ℝ := fun v => v * Real.pi / 180
  let dLat := toRad (lat2 - lat1)
  let dLon := toRad (lon2 - lon1)
  let a := Real.sin (dLat / 2) * Real.sin (dLat / 2) +
    Real.cos (toRad lat1) * Real.cos (toRad lat2) * Real.sin (dLon / 2) * Real.sin (dLon / 2)
  let c := 2 * jsAtan2 (Real.sqrt a) (Real.sqrt (1 - a))
  6371 * c

/-- JS `Number(x.toFixed(3))`: rounding to three decimal places, landing back
in `ℚ` (the tie-breaking of `toFixed` differs from `round` only at exact
half-thousandths, which never arise in the theorems below). -/
noncomputable def jsToFixed3 (x : ℝ) : ℚ := (round (x * 1000) : ℤ) / 1000

/-- The composite distance actually stored by both enrichments:
`Number(haversineKm(dlat, dlon, lat, lon).toFixed(3))`, rational coordinates
coerced into `ℝ`. -/
noncomputable def distReal (dlat dlon lat lon : ℚ) : ℚ :=
  jsToFixed3 (haversineKm (dlat : ℝ) (dlon : ℝ) (lat : ℝ) (lon : ℝ))

/-- The affected-area enrichment with the real haversine distance plugged in. -/
noncomputable def enrichAreaReal (ctx : DisasterContext) (a : AreaRec) : AreaRec :=
  enrichArea distReal ctx a

/-- Road factor as worded by the claim (C1): 0.85 for critical, 0.95 for high,
0.98 for moderate, 1.0 otherwise. -/
def claimedRoadFactor : Option Severity → ℚ
  | some .critical => 85/100
  | some .high => 95/100
  | some .moderate => 98/100
  | _ => 1

/-- Priority classes as worded by the claim (C1): high/critical, low, other. -/
inductive PriorityBand
  | highCritical
  | low
  | other
deriving DecidableEq

/-- Priority multiplier as worded by the claim (C1): 0.85 for high/critical
priority, 1.15 for low priority, 1.0 otherwise. -/
def claimedPriorityMultiplier : PriorityBand → ℚ
  | .highCritical => 85/100
  | .low => 115/100
  | .other => 1

/-- The ETA formula exactly as worded by claim C1 and the spec (section 4.2):
`max(5, round((distance_km / (80 * road_factor) * 60 + 20) * demand_multiplier
* priority_multiplier))`, with `demand_multiplier = 1.25` when the resource
items overlap the needed resources and `1.0` otherwise. -/
def claimedEta (distanceKm : ℚ) (sev : Option Severity) (overlap : Bool)
    (band : PriorityBand) : ℤ :=
  max 5 (jsRound ((distanceKm / (80 * claimedRoadFactor sev) * 60 + 20) *
    (if overlap then 125/100 else 1) * claimedPriorityMultiplier band))

/-- The priority band claim C1 assigns to a shelter priority (`high` shelters
are the high/critical band, cf. the HIGH badge in `ResourcePanel.tsx`). -/
def shelterBand : Priority → PriorityBand
  | .high => .highCritical
  | .low => .low
  | .medium => .other

/-- Views an optional numeric key as a value in `WithTop`, `none` becoming `⊤`:
this is exactly the `x != null ? x : Number.POSITIVE_INFINITY` idiom of the
comparators. -/
def toTop {α : Type} : Option α → WithTop α
  | none => ⊤
  | some a => (a : WithTop α)

/-- The descending lexicographic key (priority level, then population, both
negated) realised by the default comparator of `sortedAreas`. -/
def areaLexKey (a : AreaRec) : ℤ ×ₗ ℤ :=
  toLex (-a.priority_level, -a.population_affected)

/-- A distance oracle that reports 0 km for every pair of points; used to
instantiate the `dist` parameter in witnesses. -/
def distZero : ℚ → ℚ → ℚ → ℚ → ℚ := fun _ _ _ _ => 0

/-- A disaster context with the claim C2 center (38.90, -77.06), the default
severity `high` and the aggregated needed resources of `DEFAULT_DISASTER`. -/
def ctxW : DisasterContext :=
  { lat := some (389/10)
    lon := some (-7706/100)
    severity := some .high
    resourcesNeeded := ["shelter", "evacuation-transport", "medical", "food", "water", "generators"] }

/-- An affected area located exactly at the claim C2 center, priority level 5. -/
def areaC2 : AreaRec :=
  { id := "area-dc-se"
    location := "Washington DC - Southeast"
    coordinates := some (389/10, -7706/100)
    disaster_type := "flood"
    population_affected := 3100
    priority_level := 5
    required_resources := [("water", 2000), ("food_kits", 1500)]
    time_reported := "2025-01-01T00:00:00Z"
    distance_km := none
    eta_minutes := none }

/-- A shelter record with defined coordinates, medium priority and no items. -/
def needW : Need :=
  { shelter := "Test Shelter"
    location := "Georgetown"
    items := []
    priority := .medium
    lat := some (389/10)
    lon := some (-7706/100)
    distance_km := none
    eta_minutes := none
    urgency := 9999 }

/-- An enriched shelter record whose distance is undefined. -/
def needNull : Need :=
  { needW with shelter := "No Coordinates Shelter", lat := none, lon := none }

/-- An enriched shelter record at 2 km. -/
def needAt2 : Need :=
  { needW with shelter := "Shelter 2km", distance_km := some 2, eta_minutes := some 22, urgency := 72 }

/-- An enriched shelter record at 6 km. -/
def needAt6 : Need :=
  { needW with shelter := "Shelter 6km", distance_km := some 6, eta_minutes := some 25, urgency := 75 }

/-- A successful API body with zero matches and empty reasoning. -/
def dataEmptyMatches : MatchResultRec :=
  { success := true
    «matches» := []
    reasoning := ""
    affected_area := none }

/-- The radius-filter scenario list of the spec: enriched records at 2 km,
6 km, and with undefined distance. -/
def needsW : List Need := [needAt2, needAt6, needNull]

/-! ### Helper lemmas -/

theorem jsRound_mono {a b : ℚ} (h : a ≤ b) : jsRound a ≤ jsRound b :=
  Int.floor_le_floor (by linarith)

theorem five_le_etaShelter (d : ℚ) (sev : Option Severity) (items needed : List String)
    (p : Priority) : 5 ≤ etaMinutesShelter d sev items needed p :=
  le_max_left _ _

theorem five_le_etaArea (d : ℚ) (sev : Option Severity) (level : ℤ) :
    5 ≤ etaMinutesArea d sev level :=
  le_max_left _ _

theorem claimedRoadFactor_eq (s : Option Severity) : claimedRoadFactor s = roadFactor s := by
  rcases s with _ | s
  · rfl
  · cases s <;> rfl

theorem etaArea_zero_level5 (sev : Option Severity) : etaMinutesArea 0 sev 5 = 17 := by
  have h : ((0 : ℚ) / (baseSpeedKmh * roadFactor sev) * 60 + deployOverheadMinutes) *
      areaPriorityMultiplier 5 = 17 := by
    norm_num [baseSpeedKmh, deployOverheadMinutes, areaPriorityMultiplier]
  rw [etaMinutesArea, h]
  norm_num [jsRound]

theorem etaArea_zero_level4 (sev : Option Severity) : etaMinutesArea 0 sev 4 = 19 := by
  have h : ((0 : ℚ) / (baseSpeedKmh * roadFactor sev) * 60 + deployOverheadMinutes) *
      areaPriorityMultiplier 4 = 19 := by
    norm_num [baseSpeedKmh, deployOverheadMinutes, areaPriorityMultiplier]
  rw [etaMinutesArea, h]
  norm_num [jsRound]

theorem etaShelter_zero_medium (sev : Option Severity) (needed : List String) :
    etaMinutesShelter 0 sev [] needed .medium = 20 := by
  have hd : demandOverlap [] needed = false := by simp [demandOverlap]
  have h : ((0 : ℚ) / (baseSpeedKmh * roadFactor sev) * 60 + deployOverheadMinutes) *
      (if demandOverlap [] needed then 125/100 else 1) * priorityMultiplier .medium = 20 := by
    rw [hd]
    norm_num [baseSpeedKmh, deployOverheadMinutes, priorityMultiplier]
  rw [etaMinutesShelter, h]
  norm_num [jsRound]

theorem haversineKm_self (lat lon : ℝ) : haversineKm lat lon lat lon = 0 := by
  have h1 : (0:ℝ) < 1 := one_pos
  simp [haversineKm, jsAtan2, Real.sqrt_one, h1]

theorem distReal_self (x y : ℚ) : distReal x y x y = 0 := by
  simp [distReal, haversineKm_self, jsToFixed3]

theorem enrichAreaReal_center :
    enrichAreaReal ctxW areaC2 = { areaC2 with distance_km := some 0, eta_minutes := some 17 } := by
  have hd : distReal (389/10) (-7706/100) (389/10) (-7706/100) = 0 := distReal_self _ _
  show enrichArea distReal ctxW areaC2 = _
  rw [enrichArea]
  simp only [areaC2, ctxW]
  rw [hd, etaArea_zero_level5]

/-! ### Claim C1 -/

/-- Claim C1, counterexample: the claimed formula does not govern the
affected-area enrichment. For an affected area of priority level 4 (the HIGH
band of `getPriorityBadge`) at distance 0 with default severity and no resource
overlap, the code computes `max(5, round(20 * 0.95)) = 19`, while the claimed
formula prescribes priority multiplier 0.85 for high priority, giving
`max(5, round(20 * 0.85)) = 17`. -/
theorem C1_counterexample :
    etaMinutesArea 0 none 4 ≠ claimedEta 0 none false .highCritical
    ∧ etaMinutesArea 0 none 4 = 19
    ∧ claimedEta 0 none false .highCritical = 17 := by
  have h1 : etaMinutesArea 0 none 4 = 19 := etaArea_zero_level4 none
  have h2 : claimedEta 0 none false .highCritical = 17 := by
    have h : ((0:ℚ) / (80 * claimedRoadFactor none) * 60 + 20) *
        (if false then 125/100 else 1) * claimedPriorityMultiplier .highCritical = 17 := by
      norm_num [claimedRoadFactor, claimedPriorityMultiplier]
    rw [claimedEta, h]
    norm_num [jsRound]
  refine ⟨?_, h1, h2⟩
  rw [h1, h2]
  decide

/-- Claim C1, amended: the claimed ETA formula (road factor by severity, 1.25
demand multiplier on resource overlap, priority multiplier 0.85 high / 1.15 low
/ 1.0 otherwise) is exactly the shelter enrichment's formula; the affected-area
enrichment instead applies only a priority-level multiplier (0.85 for level at
least 5, 0.95 for level at least 4, 1.0 otherwise) and no demand multiplier. -/
theorem C1_eta_formula (d : ℚ) (sev : Option Severity) (items needed : List String)
    (p : Priority) (level : ℤ) :
    etaMinutesShelter d sev items needed p
      = claimedEta d sev (demandOverlap items needed) (shelterBand p)
    ∧ etaMinutesArea d sev level
      = max 5 (jsRound ((d / (80 * roadFactor sev) * 60 + 20) * areaPriorityMultiplier level)) := by
  constructor
  · cases p <;>
      simp [etaMinutesShelter, claimedEta, claimedRoadFactor_eq, shelterBand,
        claimedPriorityMultiplier, priorityMultiplier, baseSpeedKmh, deployOverheadMinutes]
  · simp [etaMinutesArea, baseSpeedKmh, deployOverheadMinutes]

/-! ### Claim C2 -/

/-- Claim C2, counterexample: for an affected area at the disaster center with
priority level 5, the enrichment computes `eta_minutes = 17`, not the claimed
floor value 5 (the formula gives `max(5, round((0 + 20) * 0.85)) = 17`). -/
theorem C2_counterexample :
    (enrichAreaReal ctxW areaC2).eta_minutes = some 17
    ∧ (enrichAreaReal ctxW areaC2).eta_minutes ≠ some 5 := by
  rw [enrichAreaReal_center]
  refine ⟨rfl, by decide⟩

/-- Claim C2, amended: for an affected area whose coordinates equal the
DisasterContext center (both at (38.90, -77.06)) and whose priority_level is 5,
the enrichment yields `distance_km = 0` and `eta_minutes = 17` (the 5-minute
floor is not reached, since the 20-minute deploy overhead times 0.85 already
exceeds it). -/
theorem C2_center_scenario :
    (enrichAreaReal ctxW areaC2).distance_km = some 0
    ∧ (enrichAreaReal ctxW areaC2).eta_minutes = some 17 := by
  rw [enrichAreaReal_center]
  exact ⟨rfl, rfl⟩

/-! ### Claim C3 -/

/-- Claim C3: whenever the enrichment computes an ETA at all — for a shelter
record or for an affected area — the computed `eta_minutes` is at least 5,
regardless of the distance and of the multipliers. -/
theorem C3_eta_floor (dist : ℚ → ℚ → ℚ → ℚ → ℚ) (ctx : DisasterContext)
    (m : Need) (a : AreaRec) (v w : ℤ)
    (hm : (enrichNeed dist ctx m).eta_minutes = some v)
    (ha : (enrichArea dist ctx a).eta_minutes = some w) :
    5 ≤ v ∧ 5 ≤ w := by
  constructor
  · rw [enrichNeed] at hm
    split at hm
    · simp only [Option.some.injEq] at hm
      exact hm ▸ five_le_etaShelter _ _ _ _ _
    · simp at hm
  · rw [enrichArea] at ha
    split at ha
    · simp only [Option.some.injEq] at ha
      exact ha ▸ five_le_etaArea _ _ _
    · simp at ha

theorem enrichNeed_eval_W : (enrichNeed distZero ctxW needW).eta_minutes = some 20 := by
  rw [enrichNeed]
  simp only [needW, ctxW, distZero]
  rw [etaShelter_zero_medium]

theorem enrichArea_eval_W : (enrichArea distZero ctxW areaC2).eta_minutes = some 17 := by
  rw [enrichArea]
  simp only [areaC2, ctxW, distZero]
  rw [etaArea_zero_level5]

/-- Witness for claim C3 at a concrete shelter, area and context. -/
theorem C3_eta_floor_witness :
    (enrichNeed distZero ctxW needW).eta_minutes = some 20
    ∧ (enrichArea distZero ctxW areaC2).eta_minutes = some 17
    ∧ (5:ℤ) ≤ 20 ∧ (5:ℤ) ≤ 17 :=
  ⟨enrichNeed_eval_W, enrichArea_eval_W,
    (C3_eta_floor distZero ctxW needW areaC2 20 17 enrichNeed_eval_W enrichArea_eval_W).1,
    (C3_eta_floor distZero ctxW needW areaC2 20 17 enrichNeed_eval_W enrichArea_eval_W).2⟩

/-! ### Claim C7 -/

/-- Claim C7, counterexample: at distance 0 with medium priority and no
overlap, the ETA under severity critical (road factor 0.85) equals the ETA
under the default road factor 1.0 — both are 20 — refuting the claimed strict
inequality. -/
theorem C7_counterexample :
    etaMinutesShelter 0 (some .critical) [] [] .medium = 20
    ∧ etaMinutesShelter 0 none [] [] .medium = 20 :=
  ⟨etaShelter_zero_medium _ _, etaShelter_zero_medium _ _⟩

/-- Claim C7, amended: for every fixed nonnegative distance and fixed demand
and priority multipliers, the ETA computed with road factor 0.85 (severity
critical) is greater than or equal to the ETA computed with road factor 1.0 at
that same distance (it can be equal, e.g. at distance 0, because of the
rounding and the distance-independent overhead). -/
theorem C7_critical_slower (d : ℚ) (items needed : List String) (p : Priority)
    (h : 0 ≤ d) :
    etaMinutesShelter d none items needed p
      ≤ etaMinutesShelter d (some .critical) items needed p := by
  have hdm : (0:ℚ) ≤ (if demandOverlap items needed then 125/100 else 1) := by
    split <;> norm_num
  have hpm : (0:ℚ) ≤ priorityMultiplier p := by
    cases p <;> norm_num [priorityMultiplier]
  have hdiv : d / (baseSpeedKmh * roadFactor none)
      ≤ d / (baseSpeedKmh * roadFactor (some .critical)) := by
    have h1 : (0:ℚ) < baseSpeedKmh * roadFactor (some .critical) := by
      norm_num [baseSpeedKmh, roadFactor]
    have h2 : baseSpeedKmh * roadFactor (some .critical) ≤ baseSpeedKmh * roadFactor none := by
      norm_num [baseSpeedKmh, roadFactor]
    exact div_le_div_of_nonneg_left h h1 h2
  rw [etaMinutesShelter, etaMinutesShelter]
  apply max_le_max le_rfl
  apply jsRound_mono
  apply mul_le_mul_of_nonneg_right _ hpm
  apply mul_le_mul_of_nonneg_right _ hdm
  apply add_le_add_right
  exact mul_le_mul_of_nonneg_right hdiv (by norm_num)

/-- Witness for claim C7 at distance 0 with medium priority. -/
theorem C7_critical_slower_witness :
    (0:ℚ) ≤ 0
    ∧ etaMinutesShelter 0 none [] [] .medium
      ≤ etaMinutesShelter 0 (some .critical) [] [] .medium :=
  ⟨le_refl 0, C7_critical_slower 0 [] [] .medium (le_refl 0)⟩

/-! ### Claim C4 -/

/-- Claim C4: each derived field — `distance_km` and `eta_minutes` — of an
enriched record is defined if and only if both the record's own coordinates and
the context's center coordinates are defined; in particular, when any
coordinate is missing both derived fields are explicitly `none` (never a
zero sentinel), and batch enrichment acts element-wise, so the other records
of a batch are enriched unaffected. -/
theorem C4_derived_fields (dist : ℚ → ℚ → ℚ → ℚ → ℚ) (ctx : DisasterContext) :
    (∀ m : Need,
      ((enrichNeed dist ctx m).distance_km ≠ none
        ↔ (m.lat ≠ none ∧ m.lon ≠ none ∧ ctx.lat ≠ none ∧ ctx.lon ≠ none))
      ∧ ((enrichNeed dist ctx m).eta_minutes ≠ none
        ↔ (m.lat ≠ none ∧ m.lon ≠ none ∧ ctx.lat ≠ none ∧ ctx.lon ≠ none)))
    ∧ (∀ m : Need, (m.lat = none ∨ m.lon = none ∨ ctx.lat = none ∨ ctx.lon = none) →
        (enrichNeed dist ctx m).distance_km = none
        ∧ (enrichNeed dist ctx m).eta_minutes = none)
    ∧ (∀ a : AreaRec,
      ((enrichArea dist ctx a).distance_km ≠ none
        ↔ (a.coordinates ≠ none ∧ ctx.lat ≠ none ∧ ctx.lon ≠ none))
      ∧ ((enrichArea dist ctx a).eta_minutes ≠ none
        ↔ (a.coordinates ≠ none ∧ ctx.lat ≠ none ∧ ctx.lon ≠ none)))
    ∧ (∀ a : AreaRec, (a.coordinates = none ∨ ctx.lat = none ∨ ctx.lon = none) →
        (enrichArea dist ctx a).distance_km = none
        ∧ (enrichArea dist ctx a).eta_minutes = none)
    ∧ (∀ (needs : List Need) (i : ℕ),
        (enrichNeeds dist ctx needs)[i]? = Option.map (enrichNeed dist ctx) needs[i]?)
    ∧ (∀ (areas : List AreaRec) (i : ℕ),
        (enrichAreas dist ctx areas)[i]? = Option.map (enrichArea dist ctx) areas[i]?) := by
  refine ⟨?_, ?_, ?_, ?_, ?_, ?_⟩
  · intro m
    rcases h1 : m.lat with _ | mlat <;> rcases h2 : m.lon with _ | mlon <;>
      rcases h3 : ctx.lat with _ | dlat <;> rcases h4 : ctx.lon with _ | dlon <;>
      simp [enrichNeed, h1, h2, h3, h4]
  · intro m hmiss
    rcases h1 : m.lat with _ | mlat <;> rcases h2 : m.lon with _ | mlon <;>
      rcases h3 : ctx.lat with _ | dlat <;> rcases h4 : ctx.lon with _ | dlon <;>
      simp [enrichNeed, h1, h2, h3, h4] <;>
      simp [h1, h2, h3, h4] at hmiss
  · intro a
    rcases h1 : a.coordinates with _ | c <;> rcases h3 : ctx.lat with _ | dlat <;>
      rcases h4 : ctx.lon with _ | dlon <;>
      simp [enrichArea, h1, h3, h4]
  · intro a hmiss
    rcases h1 : a.coordinates with _ | c <;> rcases h3 : ctx.lat with _ | dlat <;>
      rcases h4 : ctx.lon with _ | dlon <;>
      simp [enrichArea, h1, h3, h4] <;>
      simp [h1, h3, h4] at hmiss
  · intro needs i
    exact List.getElem?_map _ _ _
  · intro areas i
    exact List.getElem?_map _ _ _

/-! ### Claim C5 -/

theorem infLe_iff {α : Type} [LinearOrder α] (x y : Option α) :
    infLe x y = true ↔ toTop x ≤ toTop y := by
  cases x <;> cases y <;>
    simp [infLe, toTop, top_le_iff]

theorem toTop_le_none {α : Type} [LinearOrder α] {x y : Option α}
    (h : toTop x ≤ toTop y) (hx : x = none) : y = none := by
  subst hx
  cases y with
  | none => rfl
  | some b => simp [toTop, top_le_iff] at h

theorem pairwise_mergeSort_key {α β : Type} [LinearOrder β] (f : α → β) (le : α → α → Bool)
    (hle : ∀ a b, le a b = true ↔ f a ≤ f b) (l : List α) :
    (l.mergeSort le).Pairwise fun a b => f a ≤ f b := by
  have htr : ∀ a b c, le a b = true → le b c = true → le a c = true := by
    intro a b c hab hbc
    rw [hle] at hab hbc ⊢
    exact le_trans hab hbc
  have hto : ∀ a b, (le a b || le b a) = true := by
    intro a b
    rcases le_total (f a) (f b) with h | h
    · rw [Bool.or_eq_true, hle]
      exact Or.inl h
    · rw [Bool.or_eq_true, hle a b, hle b a]
      exact Or.inr h
  exact (List.sorted_mergeSort htr hto l).imp fun h => (hle _ _).1 h

/-- Claim C5: for every enriched list and every sort key, the produced order is
ascending in that key (`none` counted as plus infinity), and for the ETA and
distance keys every record with an undefined value is placed after every record
with a defined one — in both the shelter view and the affected-area view. -/
theorem C5_sort_ascending (r : Option ℚ) (needs : List Need) (areas : List AreaRec) :
    (sortedFiltered .eta r needs).Pairwise
        (fun a b => toTop a.eta_minutes ≤ toTop b.eta_minutes)
    ∧ (sortedFiltered .eta r needs).Pairwise
        (fun a b => a.eta_minutes = none → b.eta_minutes = none)
    ∧ (sortedFiltered .distance r needs).Pairwise
        (fun a b => toTop a.distance_km ≤ toTop b.distance_km)
    ∧ (sortedFiltered .distance r needs).Pairwise
        (fun a b => a.distance_km = none → b.distance_km = none)
    ∧ (sortedFiltered .urgency r needs).Pairwise (fun a b => a.urgency ≤ b.urgency)
    ∧ (sortedAreas .eta areas).Pairwise
        (fun a b => toTop a.eta_minutes ≤ toTop b.eta_minutes)
    ∧ (sortedAreas .eta areas).Pairwise
        (fun a b => a.eta_minutes = none → b.eta_minutes = none)
    ∧ (sortedAreas .distance areas).Pairwise
        (fun a b => toTop a.distance_km ≤ toTop b.distance_km)
    ∧ (sortedAreas .distance areas).Pairwise
        (fun a b => a.distance_km = none → b.distance_km = none) := by
  have pe : (sortedFiltered .eta r needs).Pairwise
      (fun a b => toTop a.eta_minutes ≤ toTop b.eta_minutes) :=
    pairwise_mergeSort_key (fun n : Need => toTop n.eta_minutes) (needCmpLe .eta)
      (fun a b => infLe_iff _ _) (radiusFilter r needs)
  have pd : (sortedFiltered .distance r needs).Pairwise
      (fun a b => toTop a.distance_km ≤ toTop b.distance_km) :=
    pairwise_mergeSort_key (fun n : Need => toTop n.distance_km) (needCmpLe .distance)
      (fun a b => infLe_iff _ _) (radiusFilter r needs)
  have pu : (sortedFiltered .urgency r needs).Pairwise (fun a b => a.urgency ≤ b.urgency) :=
    pairwise_mergeSort_key (fun n : Need => n.urgency) (needCmpLe .urgency)
      (fun a b => by simp [needCmpLe]) (radiusFilter r needs)
  have qe : (areas.mergeSort (areaCmpLe .eta)).Pairwise
      (fun a b => toTop a.eta_minutes ≤ toTop b.eta_minutes) :=
    pairwise_mergeSort_key (fun n : AreaRec => toTop n.eta_minutes) (areaCmpLe .eta)
      (fun a b => infLe_iff _ _) areas
  have qd : (areas.mergeSort (areaCmpLe .distance)).Pairwise
      (fun a b => toTop a.distance_km ≤ toTop b.distance_km) :=
    pairwise_mergeSort_key (fun n : AreaRec => toTop n.distance_km) (areaCmpLe .distance)
      (fun a b => infLe_iff _ _) areas
  have qe5 : (sortedAreas .eta areas).Pairwise
      (fun a b => toTop a.eta_minutes ≤ toTop b.eta_minutes) :=
    List.Pairwise.sublist (List.take_sublist _ _) qe
  have qd5 : (sortedAreas .distance areas).Pairwise
      (fun a b => toTop a.distance_km ≤ toTop b.distance_km) :=
    List.Pairwise.sublist (List.take_sublist _ _) qd
  exact ⟨pe, pe.imp fun h hx => toTop_le_none h hx,
    pd, pd.imp fun h hx => toTop_le_none h hx,
    pu, qe5, qe5.imp fun h hx => toTop_le_none h hx,
    qd5, qd5.imp fun h hx => toTop_le_none h hx⟩

/-- Witness for claim C5 at the concrete scenario list and an empty radius. -/
theorem C5_sort_ascending_witness :
    (sortedFiltered .eta none needsW).Pairwise
        (fun a b => a.eta_minutes = none → b.eta_minutes = none)
    ∧ (sortedFiltered .distance none needsW).Pairwise
        (fun a b => toTop a.distance_km ≤ toTop b.distance_km) :=
  ⟨(C5_sort_ascending none needsW []).2.1, (C5_sort_ascending none needsW []).2.2.1⟩

/-! ### Claim C6 -/

/-- Claim C6, counterexample: with radius threshold 0, the filter is skipped
entirely, so a record whose distance is undefined is retained although the
claim requires it to be removed for every caller-supplied threshold. -/
theorem C6_counterexample :
    sortedFiltered .eta (some 0) [needNull] = [needNull]
    ∧ needNull.distance_km = none := by
  constructor
  · have h : radiusFilter (some 0) [needNull] = [needNull] := by
      simp only [radiusFilter]
      rw [if_neg (lt_irrefl 0)]
    rw [sortedFiltered, h]
    simp [List.mergeSort]
  · rfl

/-- Claim C6, amended: for every positive radius threshold R, radius filtering
removes exactly the records whose computed distance is undefined or exceeds R
and retains all records whose distance is defined and at most R (for R ≤ 0 the
code skips the filter entirely and retains everything). -/
theorem C6_radius_filter (key : NeedSortKey) (r : ℚ) (needs : List Need) (h : 0 < r) :
    (sortedFiltered key (some r) needs).Perm
        (needs.filter fun n =>
          match n.distance_km with
          | some d => decide (d ≤ r)
          | none => false)
    ∧ ∀ n, n ∈ sortedFiltered key (some r) needs
        ↔ (n ∈ needs ∧ ∃ d, n.distance_km = some d ∧ d ≤ r) := by
  have hf : radiusFilter (some r) needs
      = needs.filter fun n =>
          match n.distance_km with
          | some d => decide (d ≤ r)
          | none => false := by
    simp only [radiusFilter]
    rw [if_pos h]
  have hperm : (sortedFiltered key (some r) needs).Perm (radiusFilter (some r) needs) :=
    List.mergeSort_perm _ _
  rw [hf] at hperm
  refine ⟨hperm, ?_⟩
  intro n
  rw [hperm.mem_iff, List.mem_filter]
  constructor
  · rintro ⟨hn, hp⟩
    refine ⟨hn, ?_⟩
    rcases hd : n.distance_km with _ | d
    · rw [hd] at hp
      simp at hp
    · rw [hd] at hp
      simp at hp
      exact ⟨d, rfl, hp⟩
  · rintro ⟨hn, d, hd, hdr⟩
    refine ⟨hn, ?_⟩
    rw [hd]
    simpa using hdr

/-- Witness for claim C6 at the spec scenario: radius 5 km, records at
2 km, 6 km and undefined distance. -/
theorem C6_radius_filter_witness :
    (0:ℚ) < 5
    ∧ ((sortedFiltered .distance (some 5) needsW).Perm
        (needsW.filter fun n =>
          match n.distance_km with
          | some d => decide (d ≤ 5)
          | none => false)
      ∧ ∀ n, n ∈ sortedFiltered .distance (some 5) needsW
          ↔ (n ∈ needsW ∧ ∃ d, n.distance_km = some d ∧ d ≤ 5)) :=
  ⟨by simp, C6_radius_filter .distance 5 needsW (by simp)⟩

/-! ### Claim C8 -/

theorem areaLex_le_iff (a b : AreaRec) :
    areaLexKey a ≤ areaLexKey b
      ↔ (b.priority_level < a.priority_level
          ∨ (a.priority_level = b.priority_level
              ∧ b.population_affected ≤ a.population_affected)) := by
  simp only [areaLexKey, Prod.Lex.le_iff]
  omega

theorem areaCmp_priority_iff (a b : AreaRec) :
    areaCmpLe .priority a b = true ↔ areaLexKey a ≤ areaLexKey b := by
  simp only [areaCmpLe, areaLexKey, Prod.Lex.le_iff]
  split_ifs with h <;> simp only [decide_eq_true_eq] <;> omega

/-- Claim C8: the affected-area view orders the records by priority level
descending with ties broken by population affected descending, and displays
at most the first 5 records of that order. -/
theorem C8_top5_priority (areas : List AreaRec) :
    ∃ l : List AreaRec, l.Perm areas
      ∧ l.Pairwise (fun a b => b.priority_level < a.priority_level
          ∨ (a.priority_level = b.priority_level
              ∧ b.population_affected ≤ a.population_affected))
      ∧ sortedAreas .priority areas = l.take 5
      ∧ (sortedAreas .priority areas).length ≤ 5 := by
  refine ⟨areas.mergeSort (areaCmpLe .priority), List.mergeSort_perm _ _, ?_, rfl, ?_⟩
  · have pw := pairwise_mergeSort_key areaLexKey (areaCmpLe .priority)
      areaCmp_priority_iff areas
    exact pw.imp fun h => (areaLex_le_iff _ _).1 h
  · show ((areas.mergeSort (areaCmpLe .priority)).take 5).length ≤ 5
    rw [List.length_take]
    exact min_le_left _ _

/-! ### Claim C9 -/

theorem leadsWith_append (tag rest : List Char) : leadsWith tag (tag ++ rest) = true := by
  induction tag with
  | nil => rfl
  | cons t ts ih => simp [leadsWith, ih]

theorem splitOnTag_append_self (tag a : List Char) :
    splitOnTag tag (tag ++ a) = some ([], a) := by
  cases tag with
  | nil =>
    cases a with
    | nil => rfl
    | cons c rest => simp [splitOnTag, leadsWith]
  | cons t ts =>
    show splitOnTag (t :: ts) (t :: (ts ++ a)) = some ([], a)
    simp [splitOnTag, leadsWith, leadsWith_append, List.drop_left]

theorem splitOnTag_first (tag b a : List Char)
    (h : ∀ i, i < b.length → leadsWith tag ((b ++ (tag ++ a)).drop i) = false) :
    splitOnTag tag (b ++ (tag ++ a)) = some (b, a) := by
  induction b with
  | nil => simpa using splitOnTag_append_self tag a
  | cons c bs ih =>
    have h0 : leadsWith tag (c :: (bs ++ (tag ++ a))) = false := by
      have h00 := h 0 (by simp)
      simpa using h00
    have hrest : splitOnTag tag (bs ++ (tag ++ a)) = some (bs, a) := by
      apply ih
      intro i hi
      have h01 := h (i + 1) (by simpa using Nat.succ_lt_succ hi)
      simpa using h01
    show splitOnTag tag (c :: (bs ++ (tag ++ a))) = some (c :: bs, a)
    simp [splitOnTag, h0, hrest]

/-- Claim C9, counterexample: for a reply containing two delimited thinking
segments, only the first is removed — the visible answer still contains a
complete `<think>...</think>` segment, refuting removal of every segment. -/
theorem C9_counterexample :
    hasThinkSegment (normalizeReply ("<think>a</think>x<think>b</think>".toList)).1 = true
    ∧ (normalizeReply ("<think>a</think>x<think>b</think>".toList)).1
        = "x<think>b</think>".toList
    ∧ (normalizeReply ("<think>a</think>x<think>b</think>".toList)).2 = some ['a'] := by
  refine ⟨?_, ?_, ?_⟩ <;> decide

/-- Claim C9, amended: the first delimited `<think>...</think>` segment is
removed from the user-visible answer (which is then trimmed) and its trimmed
content is carried separately (dropped when empty); any later segments remain
in the visible answer. -/
theorem C9_first_segment (before mid after : List Char)
    (h1 : ∀ i, i < before.length →
      leadsWith thinkOpen
        ((before ++ (thinkOpen ++ (mid ++ (thinkClose ++ after)))).drop i) = false)
    (h2 : ∀ i, i < mid.length →
      leadsWith thinkClose ((mid ++ (thinkClose ++ after)).drop i) = false) :
    normalizeReply (before ++ (thinkOpen ++ (mid ++ (thinkClose ++ after))))
      = (jsTrim (before ++ after),
         if (jsTrim mid).isEmpty then none else some (jsTrim mid)) := by
  have e1 : splitOnTag thinkOpen (before ++ (thinkOpen ++ (mid ++ (thinkClose ++ after))))
      = some (before, mid ++ (thinkClose ++ after)) :=
    splitOnTag_first _ _ _ h1
  have e2 : splitOnTag thinkClose (mid ++ (thinkClose ++ after)) = some (mid, after) :=
    splitOnTag_first _ _ _ h2
  simp only [normalizeReply, e1, e2]

/-- Witness for claim C9 at a concrete reply with one thinking segment. -/
theorem C9_first_segment_witness :
    normalizeReply
        ("Hello. ".toList ++ (thinkOpen ++ ("plan".toList ++ (thinkClose ++ " Done".toList))))
      = (jsTrim ("Hello. ".toList ++ " Done".toList),
         if (jsTrim "plan".toList).isEmpty then none else some (jsTrim "plan".toList)) :=
  C9_first_segment _ _ _ (by decide) (by decide)

/-! ### Claim C10 -/

/-- Claim C10, counterexample: when the matching API answers with an OK status
and a body whose `success` flag is set but which carries zero matches and an
empty reasoning, the handler passes that body through unchanged — so the dialog
result does not always carry exactly 3 matches and a non-empty reasoning. -/
theorem C10_counterexample :
    (handleMatchResources areaC2 (.response true dataEmptyMatches)).«matches».length = 0
    ∧ (handleMatchResources areaC2 (.response true dataEmptyMatches)).reasoning = "" := by
  constructor <;> rfl

/-- Claim C10, amended: the dialog result always has `success = true` (so the
dialog's error branch is unreachable from this handler); whenever the
connection fails, the response is non-OK, or the body's success flag is false,
the fixed built-in mock of exactly 3 shelters with a non-empty reasoning is
substituted; on an OK success response the API payload is passed through
as-is, with whatever match count it carries. -/
theorem C10_success_fallback (area : AreaRec) (o : FetchOutcome) :
    (handleMatchResources area o).success = true
    ∧ (handleMatchResources area o = fallbackResult area
        ∨ ∃ d, o = .response true d ∧ d.success = true ∧ handleMatchResources area o = d)
    ∧ (fallbackResult area).«matches».length = 3
    ∧ (fallbackResult area).reasoning ≠ "" := by
  have hne : fallbackReasoning ≠ "" := by decide
  refine ⟨?_, ?_, rfl, hne⟩
  · rcases o with _ | ⟨ok, data⟩
    · rfl
    · cases ok
      · rfl
      · cases hds : data.success
        · simp [handleMatchResources, hds, fallbackResult]
        · simp [handleMatchResources, hds]
  · rcases o with _ | ⟨ok, data⟩
    · exact Or.inl rfl
    · cases ok
      · exact Or.inl rfl
      · cases hds : data.success
        · exact Or.inl (by simp [handleMatchResources, hds])
        · exact Or.inr ⟨data, rfl, hds, by simp [handleMatchResources, hds]⟩

end AidConnect
